import Mathlib

/-!
# Depthify — verification of the upload-page job lifecycle and the 3D viewer

Shallow embedding of the client logic of the Depthify repository:

* `src/my-react-depthify/src/pages/UploadPage.jsx` — the React component that
  drives one upload → process → download job: its state hooks, the
  `handleFileSelect`, `startProcessing`, `handleDownload` and `resetUpload`
  handlers, and the hard-coded `processingSteps` phase labels.
* `src/my-react-depthify/src/services/api.js` — the thin axios REST client
  (`projectAPI.uploadImage`, `projectAPI.processProject`,
  `projectAPI.downloadProject`).
* `src/depthify-backend/models/exports/ששש_viewer.html` — the static
  three.js viewer: the `GLTFLoader` load callback (centering and scaling),
  `resetView` and `toggleWireframe`.

JavaScript strings are embedded as `List Char` (so that `startsWith` is a
structural prefix test), numbers that the code treats exactly (metric counts,
viewer coordinates) as `Nat`/`ℚ`, absent JSON fields as `Option`, and the JS
truthiness test `x || fallback` as an explicit match that also sends `0` to
the fallback.

The `async` body of `startProcessing` is embedded as a list of *segments* of
atomic state updates; segment boundaries are exactly the `await` points of the
source (`await uploadImage`, the six `await setTimeout` sleeps, and
`await processProject`).  Interleaving with `resetUpload` is expressed by
injecting the reset at a segment boundary.
-/

namespace Depthify

/-- A JavaScript string: the `File.type` MIME string, error texts, etc. -/
abbrev JSString := List Char

/-- JS `s.startsWith(pre)`: structural prefix test on the characters. -/
def jsStartsWith (s pre : JSString) : Bool :=
  match s, pre with
  | _, [] => true
  | [], _ :: _ => false
  | c :: cs, p :: ps => c == p && jsStartsWith cs ps

/-- The slice of a browser `File` object that `UploadPage.jsx` reads:
its `type` MIME string (used in `handleFileSelect`). -/
structure FileInfo where
  mime : JSString
deriving DecidableEq

/-- JS `x || d` on an optional numeric field (`Nat`-valued):
`undefined` and `0` are falsy and yield the fallback `d`. -/
def jsOrNat : Option Nat → Nat → Nat
  | none, d => d
  | some v, d => if v = 0 then d else v

/-- JS `x || d` on an optional numeric field (`ℚ`-valued):
`undefined` and `0` are falsy and yield the fallback `d`. -/
def jsOrRat : Option ℚ → ℚ → ℚ
  | none, d => d
  | some v, d => if v = 0 then d else v

/-- The fields of the `project` object in the server's `process` response that
`startProcessing` reads (`processResponse.project.vertices_count` etc.); each
may be absent. -/
structure ProjectFields where
  vertices_count : Option Nat
  faces_count : Option Nat
  processing_time : Option ℚ
deriving DecidableEq

/-- The `process` response: `{ project: {...} }` (UploadPage.jsx line 103). -/
structure ProcessResponse where
  project : ProjectFields
deriving DecidableEq

/-- The surfaced result metrics (`result3D.stats`).  `processingTime` is the
numeric part of the displayed string `` `${...}s` ``. -/
structure Stats where
  vertices : Nat
  faces : Nat
  processingTime : ℚ
deriving DecidableEq

/-- The `stats` object built in `startProcessing` (UploadPage.jsx 111-115):
`vertices_count || 15420`, `faces_count || 30840`,
`` `${processing_time || 2.3}s` ``. -/
def mkStats (p : ProjectFields) : Stats :=
  { vertices := jsOrNat p.vertices_count 15420
    faces := jsOrNat p.faces_count 30840
    processingTime := jsOrRat p.processing_time (23/10) }

/-- The `result3D` object set on success (UploadPage.jsx 106-116).
`plyFile`/`stlFile` are both `` `/api/projects/${id}/download` ``. -/
structure Result3D where
  projectId : Nat
  plyFile : String
  stlFile : String
  previewImage : Option String
  stats : Stats
deriving DecidableEq

/-- Builds the `result3D` value: `previewImage` is the closure-captured
`uploadedImage` of the render in which `startProcessing` was invoked. -/
def mkResult3D (pid : Nat) (captured : Option String) (pr : ProcessResponse) :
    Result3D :=
  { projectId := pid
    plyFile := "/api/projects/" ++ toString pid ++ "/download"
    stlFile := "/api/projects/" ++ toString pid ++ "/download"
    previewImage := captured
    stats := mkStats pr.project }

/-- The component state of `UploadPage` — one field per `useState` hook that
the verified handlers touch (`dragOver` and `objectType` are pure UI knobs
and carried nowhere by the claims, so they are omitted). -/
structure PageState where
  uploadedImage : Option String
  uploadedFile : Option FileInfo
  projectId : Option Nat
  isProcessing : Bool
  processingStep : Nat
  result3D : Option Result3D
  error : String
deriving DecidableEq

/-- The initial hook values of `UploadPage` (lines 6-14). -/
def initialState : PageState :=
  { uploadedImage := none, uploadedFile := none, projectId := none
    isProcessing := false, processingStep := 0, result3D := none, error := "" }

/-- Handler `resetUpload` (UploadPage.jsx 128-136): clears every hook back to its
initial value. -/
def resetUpload (_s : PageState) : PageState :=
  { uploadedImage := none, uploadedFile := none, result3D := none
    isProcessing := false, processingStep := 0, error := "", projectId := none }

/-- A network request issued through `projectAPI` (api.js).  `uploadImage`
carries the file and form fields; the claims only need its occurrence, so the
payload is elided. -/
inductive NetCall where
  | uploadImage : NetCall
  | processProject (projectId : Nat) : NetCall
  | downloadProject (projectId : Nat) : NetCall
deriving DecidableEq

/-- The URL path of `projectAPI.downloadProject` (api.js 99-108):
`baseURL` ends in `/api` and the request path is
`` `/projects/${projectId}/download` ``. -/
def downloadPath (pid : Nat) : String :=
  "/api/projects/" ++ toString pid ++ "/download"

/-- Handler `handleFileSelect(file)` (UploadPage.jsx 45-59).  The validity test is
`file && file.type.startsWith('image/')`.  On a valid image the
`FileReader.onload` callback stores the data-URL and the file and clears
`result3D`, `error` and `projectId`; otherwise only the error text is set.
The second component lists the network calls made: always `[]` — this handler
never touches `projectAPI`. -/
def handleFileSelect (file : Option FileInfo) (dataUrl : String)
    (s : PageState) : PageState × List NetCall :=
  match file with
  | some f =>
    if jsStartsWith f.mime "image/".data then
      ({ s with uploadedImage := some dataUrl, uploadedFile := some f
                result3D := none, error := "", projectId := none }, [])
    else
      ({ s with error := "Please select a valid image file" }, [])
  | none => ({ s with error := "Please select a valid image file" }, [])

/-- Outcome of one `handleDownload` run: the final component state, the
network calls issued, and the suggested filename of the saved blob (`none`
when nothing was saved). -/
structure DownloadOutcome where
  finalState : PageState
  calls : List NetCall
  savedFile : Option String
deriving DecidableEq

/-- Handler `handleDownload(format)` (UploadPage.jsx 15-31), parameterised by whether
the `downloadProject` request succeeds.  It reads `result3D.projectId`: when
`result3D` is `null` that member access throws before any request is made and
the `catch` block runs.  On success a link named
`` `model_${projectId}.${format}` `` is clicked; on failure only
`setError('Download failed. Please try again.')` runs. -/
def handleDownload (format : String) (success : Bool) (s : PageState) :
    DownloadOutcome :=
  match s.result3D with
  | none =>
    { finalState := { s with error := "Download failed. Please try again." }
      calls := [], savedFile := none }
  | some r =>
    if success then
      { finalState := s
        calls := [NetCall.downloadProject r.projectId]
        savedFile := some ("model_" ++ toString r.projectId ++ "." ++ format) }
    else
      { finalState := { s with error := "Download failed. Please try again." }
        calls := [NetCall.downloadProject r.projectId], savedFile := none }

/-- The seven hard-coded phase labels `processingSteps` (UploadPage.jsx
35-43), in source order. -/
def processingSteps : List String :=
  ["Analyzing image...",
   "Removing background...",
   "Generating depth map...",
   "Creating 3D model...",
   "Optimizing mesh...",
   "Adding colors...",
   "Finalizing..."]

/-- One atomic effect inside the `startProcessing` body: a `setX` hook update
or the issuing of a network request (which does not itself change the
component state). -/
inductive Op where
  | setIsProcessing (b : Bool) : Op
  | setProcessingStep (i : Nat) : Op
  | setError (e : String) : Op
  | setProjectId (v : Option Nat) : Op
  | setResult3D (v : Option Result3D) : Op
  | netUpload : Op
  | netProcess (pid : Nat) : Op
deriving DecidableEq

/-- Effect of one atomic op on the component state. -/
def applyOp (s : PageState) : Op → PageState
  | .setIsProcessing b => { s with isProcessing := b }
  | .setProcessingStep i => { s with processingStep := i }
  | .setError e => { s with error := e }
  | .setProjectId v => { s with projectId := v }
  | .setResult3D v => { s with result3D := v }
  | .netUpload => s
  | .netProcess _ => s

/-- Applies a list of atomic ops left to right. -/
def applyOps (s : PageState) (ops : List Op) : PageState :=
  ops.foldl applyOp s

/-- The successful run of `startProcessing` (UploadPage.jsx 73-126) as
segments of atomic ops; the boundaries after the segments are exactly the
`await` points of the source, in order:

* segment 0 ends at `await projectAPI.uploadImage(...)`,
* segments 1-6 each end at an `await setTimeout(..., 1000)` sleep of the
  cosmetic loop (the loop body runs `setProcessingStep(i)` then sleeps, for
  `i = 1..6`; line 93 has already set step 1 before the loop),
* segment 7 ends at `await projectAPI.processProject(newProjectId)`,
* segment 8 is the continuation after the process response: `setResult3D`
  and the `finally` clause's `setIsProcessing(false)`.

`captured` is the closure value of `uploadedImage` at invocation time,
`pid` the server-assigned `project_id` of the upload response, and `pr` the
`process` response. -/
def startProcessingSegs (captured : Option String) (pid : Nat)
    (pr : ProcessResponse) : List (List Op) :=
  [ [Op.setIsProcessing true, Op.setProcessingStep 0, Op.setError "",
     Op.netUpload],
    [Op.setProjectId (some pid), Op.setProcessingStep 1,
     Op.setProcessingStep 1],
    [Op.setProcessingStep 2],
    [Op.setProcessingStep 3],
    [Op.setProcessingStep 4],
    [Op.setProcessingStep 5],
    [Op.setProcessingStep 6],
    [Op.netProcess pid],
    [Op.setResult3D (some (mkResult3D pid captured pr)),
     Op.setIsProcessing false] ]

/-- Handler `startProcessing` begins with `if (!uploadedFile) return;`: with no
selected file the body is empty; otherwise it is `startProcessingSegs`.
`file` is the closure value of `uploadedFile` at invocation time. -/
def startProcessingRun (file : Option FileInfo) (captured : Option String)
    (pid : Nat) (pr : ProcessResponse) : List (List Op) :=
  match file with
  | none => []
  | some _ => startProcessingSegs captured pid pr

/-- The flat op trace of a successful `startProcessing` run. -/
def flatOps (captured : Option String) (pid : Nat) (pr : ProcessResponse) :
    List Op :=
  (startProcessingSegs captured pid pr).flatten

/-- Runs the segments sequentially from a state (no interleaving). -/
def runSegs (s : PageState) (segs : List (List Op)) : PageState :=
  segs.foldl applyOps s

/-- Runs the segments with one `resetUpload` interleaved at the `await`
boundary after the first `k` segments (the user clicks the reset button while
the `k`-th awaited promise is pending); the remaining segments are the
continuation of the still-running async body. -/
def runWithResetAfter (k : Nat) (s : PageState) (segs : List (List Op)) :
    PageState :=
  runSegs (resetUpload (runSegs s (segs.take k))) (segs.drop k)

/-- The network calls issued by a list of ops, in order. -/
def callsOf (ops : List Op) : List NetCall :=
  ops.filterMap fun op =>
    match op with
    | .netUpload => some NetCall.uploadImage
    | .netProcess pid => some (NetCall.processProject pid)
    | _ => none

/-- The network calls issued by the part of the async body that runs after
the reset at boundary `k`. -/
def callsAfterReset (k : Nat) (segs : List (List Op)) : List NetCall :=
  callsOf (segs.drop k).flatten

/-- The phase indices displayed by a trace: each `setProcessingStep i` makes
the UI show `processingSteps[i]`. -/
def shownSteps (ops : List Op) : List Nat :=
  ops.filterMap fun op =>
    match op with
    | .setProcessingStep i => some i
    | _ => none

/-- Does this op issue the `process` request? -/
def Op.isNetProcess : Op → Bool
  | .netProcess _ => true
  | _ => false

/-- Does this op set a (non-`null`) completed result, i.e. transition the UI
to the completed state? -/
def Op.isSetResult : Op → Bool
  | .setResult3D (some _) => true
  | _ => false

/-- Does this op display a phase label? -/
def Op.isSetStep : Op → Bool
  | .setProcessingStep _ => true
  | _ => false

/-- Positions of the ops in a trace that satisfy `p`. -/
def idxsWhere (p : Op → Bool) (ops : List Op) : List Nat :=
  (ops.enum.filter fun x => p x.2).map Prod.fst

/-- The phase display and the `process` call overlap in time: the `process`
request is issued strictly before some later phase display (so the two
proceed concurrently). -/
def runsConcurrently (ops : List Op) : Prop :=
  ∃ i ∈ idxsWhere Op.isNetProcess ops,
    ∃ j ∈ idxsWhere Op.isSetStep ops, i < j

instance (ops : List Op) : Decidable (runsConcurrently ops) := by
  unfold runsConcurrently; infer_instance

/-! ## The three.js viewer (ששש_viewer.html)

Coordinates are embedded as exact rationals.  A loaded `THREE.Group` is
modelled by its world-geometry data: the list of geometry vertices in the
model's local frame, the model's `position` and (uniform-per-axis settable)
`scale`, and — for the wireframe toggle — the tree of sub-meshes with their
material `wireframe` flags.  The models this viewer loads carry no rotation,
and none of the modelled operations introduce one, so the world transform of
a local vertex `v` is `position + scale ⊙ v` (componentwise product), which
is exactly what `Box3.setFromObject` measures. -/

/-- A 3-vector with exact rational coordinates. -/
structure Vec3 where
  x : ℚ
  y : ℚ
  z : ℚ
deriving DecidableEq

/-- Componentwise addition (`Vector3.add`). -/
def Vec3.add (a b : Vec3) : Vec3 := ⟨a.x + b.x, a.y + b.y, a.z + b.z⟩

/-- Componentwise subtraction (`Vector3.sub`). -/
def Vec3.sub (a b : Vec3) : Vec3 := ⟨a.x - b.x, a.y - b.y, a.z - b.z⟩

/-- Componentwise product (applying a per-axis scale to a vertex). -/
def Vec3.hadamard (a b : Vec3) : Vec3 := ⟨a.x * b.x, a.y * b.y, a.z * b.z⟩

/-- Componentwise minimum (`Box3.expandByPoint` on the `min` corner). -/
def Vec3.vmin (a b : Vec3) : Vec3 := ⟨min a.x b.x, min a.y b.y, min a.z b.z⟩

/-- Componentwise maximum (`Box3.expandByPoint` on the `max` corner). -/
def Vec3.vmax (a b : Vec3) : Vec3 := ⟨max a.x b.x, max a.y b.y, max a.z b.z⟩

/-- Scalar multiple of a vector. -/
def Vec3.smul (k : ℚ) (a : Vec3) : Vec3 := ⟨k * a.x, k * a.y, k * a.z⟩

/-- The sub-object hierarchy of the loaded asset, as `model.traverse` walks
it: meshes (carrying their material's `wireframe` flag) and plain groups,
each with arbitrarily nested children. -/
inductive SceneNode where
  | mesh (wireframe : Bool) (children : List SceneNode) : SceneNode
  | group (children : List SceneNode) : SceneNode

mutual

/-- Applies `model.traverse(child => { if (child.isMesh) child.material.wireframe = b })`
(ששש_viewer.html 167-171): sets every sub-mesh's flag, nested ones included. -/
def SceneNode.setWire (b : Bool) : SceneNode → SceneNode
  | .mesh _ cs => .mesh b (setWireAll b cs)
  | .group cs => .group (setWireAll b cs)

/-- Function `setWire` mapped over a child list. -/
def SceneNode.setWireAll (b : Bool) : List SceneNode → List SceneNode
  | [] => []
  | n :: ns => SceneNode.setWire b n :: setWireAll b ns

end

mutual

/-- The `wireframe` flags of all sub-meshes, in traversal order. -/
def SceneNode.wireFlags : SceneNode → List Bool
  | .mesh w cs => w :: wireFlagsAll cs
  | .group cs => wireFlagsAll cs

/-- Function `wireFlags` concatenated over a child list. -/
def SceneNode.wireFlagsAll : List SceneNode → List Bool
  | [] => []
  | n :: ns => n.wireFlags ++ wireFlagsAll ns

end

/-- The loaded model (`gltf.scene`, a `THREE.Group`): local-frame geometry
vertices, the group's `position` and per-axis `scale` (initially `(1,1,1)`;
`scale.setScalar` overwrites all three axes), and the sub-mesh tree. -/
structure Model3D where
  vertices : List Vec3
  position : Vec3
  scale : Vec3
  root : SceneNode

/-- World position of a local geometry vertex under the model's current
transform. -/
def worldVertex (m : Model3D) (v : Vec3) : Vec3 :=
  m.position.add (m.scale.hadamard v)

/-- An axis-aligned `THREE.Box3`. -/
structure Box3 where
  lo : Vec3
  hi : Vec3
deriving DecidableEq

/-- Computes `new THREE.Box3().setFromObject(model)`: the world-space AABB of the
model's geometry.  three.js starts from the empty box and expands it by every
world-transformed vertex; for the nonempty vertex lists the viewer deals
with, that is the componentwise min/max fold below (the degenerate empty-list
case is mapped to the zero box; every theorem about the viewer assumes a
nonempty model). -/
def boxOf (m : Model3D) : Box3 :=
  match m.vertices with
  | [] => ⟨⟨0, 0, 0⟩, ⟨0, 0, 0⟩⟩
  | v :: vs =>
    ⟨(vs.map (worldVertex m)).foldl Vec3.vmin (worldVertex m v),
     (vs.map (worldVertex m)).foldl Vec3.vmax (worldVertex m v)⟩

/-- Computes `box.getCenter(...)`: the midpoint of the two corners. -/
def boxCenter (b : Box3) : Vec3 := Vec3.smul (1/2) (b.lo.add b.hi)

/-- Computes `box.getSize(...)`: the componentwise extent. -/
def boxSize (b : Box3) : Vec3 := b.hi.sub b.lo

/-- Computes `Math.max(size.x, size.y, size.z)` (ששש_viewer.html 119, 155). -/
def maxDim (s : Vec3) : ℚ := max s.x (max s.y s.z)

/-- The viewer page's mutable globals that the modelled functions touch:
`model` (null before the load callback fires), `wireframeMode`, the camera
position and the orbit-controls target. -/
structure ViewerState where
  model : Option Model3D
  wireframeMode : Bool
  cameraPos : Vec3
  controlsTarget : Vec3

/-- The viewer state right after `init` set up scene and camera
(`camera.position.set(0, 0, 100)`, default controls target, `wireframeMode =
false`), before the GLTF load callback has fired. -/
def initViewer : ViewerState :=
  { model := none, wireframeMode := false
    cameraPos := ⟨0, 0, 100⟩, controlsTarget := ⟨0, 0, 0⟩ }

/-- The `GLTFLoader` success callback (ששש_viewer.html 109-129) applied to
the parsed asset `m`: compute the AABB, translate the model by the box
center (`model.position.sub(center)`), then, if the largest box dimension
exceeds 50, set a uniform scale of `50 / maxSize` on every axis
(`model.scale.setScalar(scale)`); finally retarget the orbit controls at the
(pre-translation) box center (`controls.target.copy(center)`). -/
def loadCallback (m : Model3D) (v : ViewerState) : ViewerState :=
  let box := boxOf m
  let center := boxCenter box
  let m1 : Model3D := { m with position := m.position.sub center }
  let size := boxSize box
  let maxSize := maxDim size
  let m2 : Model3D :=
    if 50 < maxSize then
      { m1 with scale := ⟨50 / maxSize, 50 / maxSize, 50 / maxSize⟩ }
    else m1
  { v with model := some m2, controlsTarget := center }

/-- Handler `resetView` (ששש_viewer.html 149-162): with a model present, recompute
its AABB and place the camera at `(d, d * 0.5, d)` for `d = 2 * maxSize`,
retargeting the controls at the box center; with no model, do nothing. -/
def resetView (v : ViewerState) : ViewerState :=
  match v.model with
  | none => v
  | some m =>
    let box := boxOf m
    let center := boxCenter box
    let size := boxSize box
    let distance := maxDim size * 2
    { v with cameraPos := ⟨distance, distance * (1/2), distance⟩
             controlsTarget := center }

/-- Handler `toggleWireframe` (ששש_viewer.html 164-173): with a model present, flip
the global `wireframeMode` and traverse the model, writing the new flag into
every sub-mesh's material; with no model, do nothing. -/
def toggleWireframe (v : ViewerState) : ViewerState :=
  match v.model with
  | none => v
  | some m =>
    let w := !v.wireframeMode
    { v with wireframeMode := w
             model := some { m with root := m.root.setWire w } }

/-! ## Concrete scenario inputs -/

/-- The request path (relative to the host) of each `projectAPI` call:
`baseURL` is `http://127.0.0.1:5000/api` (api.js 4) and the per-call paths
are `/upload`, `` `/process/${projectId}` `` and
`` `/projects/${projectId}/download` ``. -/
def requestPath : NetCall → String
  | .uploadImage => "/api/upload"
  | .processProject pid => "/api/process/" ++ toString pid
  | .downloadProject pid => downloadPath pid

/-- A PNG image file (valid input). -/
def pngFile : FileInfo := ⟨"image/png".data⟩

/-- A PDF file (not an image). -/
def pdfFile : FileInfo := ⟨"application/pdf".data⟩

/-- The page state after the user selects a valid PNG image. -/
def selectedState : PageState :=
  (handleFileSelect (some pngFile) "data:image/png;base64,iVBOR" initialState).1

/-- A concrete `process` response for the reset-interleaving scenario. -/
def staleResponse : ProcessResponse := ⟨⟨some 20000, some 40000, some 5⟩⟩

/-- The async body of `startProcessing` as invoked from `selectedState`
(the upload later resolves with `project_id = 1`, the process call with
`staleResponse`). -/
def staleSegs : List (List Op) :=
  startProcessingRun selectedState.uploadedFile selectedState.uploadedImage
    1 staleResponse

/-- A test asset whose bounding box is 120 × 40 × 10 units. -/
def wideModel : Model3D :=
  { vertices := [⟨0, 0, 0⟩, ⟨120, 40, 10⟩], position := ⟨0, 0, 0⟩
    scale := ⟨1, 1, 1⟩, root := .group [] }

/-- A sub-mesh hierarchy with a nested sub-mesh, all flags off (as
`GLTFLoader` materials come: three.js materials default to
`wireframe: false`). -/
def nestedRoot : SceneNode :=
  .group [.mesh false [.group [.mesh false []]], .mesh false []]

/-- A loaded test model carrying `nestedRoot`. -/
def nestedModel : Model3D :=
  { vertices := [⟨0, 0, 0⟩], position := ⟨0, 0, 0⟩, scale := ⟨1, 1, 1⟩
    root := nestedRoot }

/-- Viewer state with `nestedModel` loaded and `wireframeMode = false` (the
global's initial value, ששש_viewer.html line 74). -/
def nestedViewer : ViewerState :=
  { model := some nestedModel, wireframeMode := false
    cameraPos := ⟨0, 0, 100⟩, controlsTarget := ⟨0, 0, 0⟩ }

/-! ## Theorems: the upload-page job lifecycle -/

/-- C4: for every file whose MIME type does not start with `image/`,
`handleFileSelect` surfaces the validation error `'Please select a valid
image file'`, issues no network call, and leaves the selected upload
unchanged (in particular the rejected file is not accepted); moreover with no
accepted file, `startProcessing` returns at its guard, so its body is empty
and it makes no network call. -/
theorem c4_nonimage_rejected (f : FileInfo) (dataUrl : String) (s : PageState)
    (h : jsStartsWith f.mime "image/".data = false) :
    handleFileSelect (some f) dataUrl s
        = ({ s with error := "Please select a valid image file" }, [])
      ∧ (handleFileSelect (some f) dataUrl s).1.uploadedFile = s.uploadedFile
      ∧ ∀ captured pid pr,
          startProcessingRun none captured pid pr = ([] : List (List Op)) := by
  refine ⟨?_, ?_, fun _ _ _ => rfl⟩ <;> simp [handleFileSelect, h]

/-- C4 witness: a PDF file is rejected with the validation error, no network
call, and the selected upload stays empty. -/
theorem c4_nonimage_rejected_witness :
    jsStartsWith pdfFile.mime "image/".data = false
      ∧ handleFileSelect (some pdfFile) "" initialState
          = ({ initialState with
                error := "Please select a valid image file" }, [])
      ∧ (handleFileSelect (some pdfFile) "" initialState).1.uploadedFile
          = initialState.uploadedFile :=
  have h : jsStartsWith pdfFile.mime "image/".data = false := by decide
  ⟨h, (c4_nonimage_rejected pdfFile "" initialState h).1,
      (c4_nonimage_rejected pdfFile "" initialState h).2.1⟩

/-- C9: when the `downloadProject` request fails after a job has completed,
`handleDownload` surfaces the error message and changes nothing else: the
completed result (`result3D` with its project id, stats and download URLs)
and every other field are left exactly as they were. -/
theorem c9_failed_download_preserves_result (s : PageState) (r : Result3D)
    (fmt : String) (h : s.result3D = some r) :
    handleDownload fmt false s
        = { finalState := { s with error := "Download failed. Please try again." }
            calls := [NetCall.downloadProject r.projectId]
            savedFile := none }
      ∧ (handleDownload fmt false s).finalState.result3D = s.result3D
      ∧ (handleDownload fmt false s).finalState.projectId = s.projectId
      ∧ (handleDownload fmt false s).finalState.uploadedImage
          = s.uploadedImage := by
  refine ⟨?_, ?_, ?_, ?_⟩ <;> simp [handleDownload, h]

/-- C9 witness: a failed download from a completed state keeps the result and
sets only the error text. -/
theorem c9_failed_download_preserves_result_witness :
    (handleDownload "ply" false
        { selectedState with result3D := some (mkResult3D 1 none staleResponse) }
      ).finalState.result3D = some (mkResult3D 1 none staleResponse)
      ∧ (handleDownload "ply" false
          { selectedState with
              result3D := some (mkResult3D 1 none staleResponse) }
        ).finalState.error = "Download failed. Please try again." :=
  have h := c9_failed_download_preserves_result
    { selectedState with result3D := some (mkResult3D 1 none staleResponse) }
    (mkResult3D 1 none staleResponse) "ply" rfl
  ⟨h.2.1, by rw [h.1]⟩

/-- C10: for a completed project, the PLY download and the STL download issue
the identical request (`GET /api/projects/{id}/download`), so any
deterministic server returns them the same bytes; the chosen format only
changes the extension of the suggested filename `model_<projectId>.<format>`. -/
theorem c10_ply_stl_same_request (s : PageState) (r : Result3D)
    (h : s.result3D = some r) :
    (handleDownload "ply" true s).calls = (handleDownload "stl" true s).calls
      ∧ (handleDownload "ply" true s).calls
          = [NetCall.downloadProject r.projectId]
      ∧ ((handleDownload "ply" true s).calls.map requestPath)
          = [downloadPath r.projectId]
      ∧ (∀ server : NetCall → List Nat,
          (handleDownload "ply" true s).calls.map server
            = (handleDownload "stl" true s).calls.map server)
      ∧ (handleDownload "ply" true s).savedFile
          = some ("model_" ++ toString r.projectId ++ ".ply")
      ∧ (handleDownload "stl" true s).savedFile
          = some ("model_" ++ toString r.projectId ++ ".stl") := by
  refine ⟨?_, ?_, ?_, fun server => ?_, ?_, ?_⟩ <;>
    simp [handleDownload, h, requestPath, String.append_assoc]

/-- C10 witness: from a concrete completed state, both download buttons send
the one request for project 1 and suggest `model_1.ply` / `model_1.stl`. -/
theorem c10_ply_stl_same_request_witness :
    (handleDownload "ply" true
        { selectedState with result3D := some (mkResult3D 1 none staleResponse) }
      ).calls
        = (handleDownload "stl" true
            { selectedState with
                result3D := some (mkResult3D 1 none staleResponse) }).calls
      ∧ (handleDownload "ply" true
          { selectedState with
              result3D := some (mkResult3D 1 none staleResponse) }).savedFile
          = some "model_1.ply" :=
  have h := c10_ply_stl_same_request
    { selectedState with result3D := some (mkResult3D 1 none staleResponse) }
    (mkResult3D 1 none staleResponse) rfl
  ⟨h.1, h.2.2.2.2.1⟩

/-- C2 counterexample: the claim says a present metric value of `0` is
surfaced as `0`, but the code builds the stats with JS `||`, for which `0` is
falsy: a response with `vertices_count = 0` present surfaces the fallback
`15420`, not `0`. -/
theorem c2_zero_metric_counterexample :
    (mkStats ⟨some 0, none, none⟩).vertices = 15420
      ∧ ¬ (mkStats ⟨some 0, none, none⟩).vertices = 0 := by
  decide

/-- C2 (amended): each surfaced metric equals the server-supplied value when
that field is present with a nonzero value, and equals the fixed fallback
(vertices 15420, faces 30840, time 2.3 s) when the field is absent *or*
present with the JS-falsy value `0`. -/
theorem c2_metric_fallbacks (p : ProjectFields) :
    (∀ v, p.vertices_count = some v → v ≠ 0 → (mkStats p).vertices = v)
      ∧ (p.vertices_count = none ∨ p.vertices_count = some 0 →
          (mkStats p).vertices = 15420)
      ∧ (∀ v, p.faces_count = some v → v ≠ 0 → (mkStats p).faces = v)
      ∧ (p.faces_count = none ∨ p.faces_count = some 0 →
          (mkStats p).faces = 30840)
      ∧ (∀ v, p.processing_time = some v → v ≠ 0 →
          (mkStats p).processingTime = v)
      ∧ (p.processing_time = none ∨ p.processing_time = some 0 →
          (mkStats p).processingTime = 23 / 10) := by
  refine ⟨fun v hv hnz => ?_, fun hv => ?_, fun v hv hnz => ?_, fun hv => ?_,
      fun v hv hnz => ?_, fun hv => ?_⟩
  · simp [mkStats, jsOrNat, hv, hnz]
  · rcases hv with hv | hv <;> simp [mkStats, jsOrNat, hv]
  · simp [mkStats, jsOrNat, hv, hnz]
  · rcases hv with hv | hv <;> simp [mkStats, jsOrNat, hv]
  · simp [mkStats, jsOrRat, hv, hnz]
  · rcases hv with hv | hv <;> simp [mkStats, jsOrRat, hv]

/-- C2 witness: a response with `vertices_count = 7` present, `faces_count`
absent and `processing_time = 0` present surfaces `7`, the faces fallback
`30840`, and the time fallback `2.3`. -/
theorem c2_metric_fallbacks_witness :
    (mkStats ⟨some 7, none, some 0⟩).vertices = 7
      ∧ (mkStats ⟨some 7, none, some 0⟩).faces = 30840
      ∧ (mkStats ⟨some 7, none, some 0⟩).processingTime = 23 / 10 :=
  ⟨(c2_metric_fallbacks ⟨some 7, none, some 0⟩).1 7 rfl (by decide),
   (c2_metric_fallbacks ⟨some 7, none, some 0⟩).2.2.2.1 (Or.inl rfl),
   (c2_metric_fallbacks ⟨some 7, none, some 0⟩).2.2.2.2.2 (Or.inr rfl)⟩

/-- C5: in every successful `startProcessing` run, the displayed phase
indices are exactly `[0, 1, 1, 2, 3, 4, 5, 6]` — so all seven phases appear,
in the fixed source order, as do their labels from `processingSteps` — and
every one of these displays happens strictly before the completed state is
set (`setResult3D`), which in this code is automatic because the `process`
call itself is only issued after the display loop has finished. -/
theorem c5_seven_phases_before_completion (captured : Option String)
    (pid : Nat) (pr : ProcessResponse) :
    shownSteps (flatOps captured pid pr) = [0, 1, 1, 2, 3, 4, 5, 6]
      ∧ [0, 1, 2, 3, 4, 5, 6].Sublist (shownSteps (flatOps captured pid pr))
      ∧ processingSteps.Sublist
          ((shownSteps (flatOps captured pid pr)).map
            fun i => processingSteps.getD i "")
      ∧ shownSteps
            ((flatOps captured pid pr).takeWhile fun op => !op.isSetResult)
          = shownSteps (flatOps captured pid pr) := by
  have h : shownSteps (flatOps captured pid pr) = [0, 1, 1, 2, 3, 4, 5, 6] :=
    rfl
  refine ⟨h, ?_, ?_, rfl⟩
  · rw [h]; decide
  · rw [h]; simp [processingSteps]

/-- C1 counterexample: on the (deterministic, parameter-independent) op trace
of a successful job, the `process` request is *not* issued before any phase
display still to come — the display sequence and the network call do not
overlap, so they do not run concurrently as the claim states. -/
theorem c1_not_concurrent_counterexample :
    ¬ runsConcurrently (flatOps none 1 ⟨⟨none, none, none⟩⟩) := by
  decide

/-- C1 (amended): the cosmetic phase sequence and the `process` network call
run *sequentially*, not concurrently: the full phase sequence (indices
`[0,1,1,2,3,4,5,6]`) is displayed before the `process` request is even
issued, and the UI still transitions to the completed state only after both —
the prefix of the trace before `setResult3D` contains the whole display
sequence and both network calls, and after the completed-state transition
only the `finally` clause's `setIsProcessing(false)` remains. -/
theorem c1_sequential_then_join (captured : Option String) (pid : Nat)
    (pr : ProcessResponse) :
    shownSteps ((flatOps captured pid pr).takeWhile fun op => !op.isNetProcess)
        = [0, 1, 1, 2, 3, 4, 5, 6]
      ∧ shownSteps (flatOps captured pid pr) = [0, 1, 1, 2, 3, 4, 5, 6]
      ∧ callsOf ((flatOps captured pid pr).takeWhile fun op => !op.isSetResult)
          = [NetCall.uploadImage, NetCall.processProject pid]
      ∧ (flatOps captured pid pr).dropWhile (fun op => !op.isSetResult)
          = [Op.setResult3D (some (mkResult3D pid captured pr)),
             Op.setIsProcessing false] :=
  ⟨rfl, rfl, rfl, rfl⟩

/-- C3: evaluation of the code at the failing interleavings.  The async body
of `startProcessing` has no notion of an active-job identifier: (a) if the
user clicks reset while the `process` request is in flight (the boundary
after segment 8), the continuation still applies `setResult3D` — the
abandoned job's completed result lands on the cleared state (the selected
file and image are gone but a result is shown); (b) if reset is clicked
while the *upload* is in flight (the boundary after segment 1), the
continuation still issues the `process` request with the abandoned job's
project id. -/
theorem c3_reset_not_detected :
    (runWithResetAfter 8 selectedState staleSegs).result3D
        = some (mkResult3D 1 (some "data:image/png;base64,iVBOR")
            staleResponse)
      ∧ (runWithResetAfter 8 selectedState staleSegs).uploadedFile = none
      ∧ (runWithResetAfter 8 selectedState staleSegs).uploadedImage = none
      ∧ (runWithResetAfter 8 selectedState staleSegs).isProcessing = false
      ∧ callsAfterReset 1 staleSegs = [NetCall.processProject 1] :=
  ⟨rfl, rfl, rfl, rfl, rfl⟩

/-! ## Theorems: the three.js viewer -/

/-- Translating the model translates every world vertex by the same amount. -/
theorem worldVertex_shift (m : Model3D) (t q : Vec3) :
    worldVertex { m with position := m.position.sub t } q
      = (worldVertex m q).sub t := by
  simp only [worldVertex, Vec3.sub, Vec3.add, Vec3.hadamard, Vec3.mk.injEq]
  refine ⟨by ring, by ring, by ring⟩

/-- Componentwise min commutes with a common translation. -/
theorem vmin_sub (p q t : Vec3) :
    Vec3.vmin (p.sub t) (q.sub t) = (Vec3.vmin p q).sub t := by
  simp only [Vec3.vmin, Vec3.sub, Vec3.mk.injEq]
  exact ⟨min_sub_sub_right _ _ _, min_sub_sub_right _ _ _,
    min_sub_sub_right _ _ _⟩

/-- Componentwise max commutes with a common translation. -/
theorem vmax_sub (p q t : Vec3) :
    Vec3.vmax (p.sub t) (q.sub t) = (Vec3.vmax p q).sub t := by
  simp only [Vec3.vmax, Vec3.sub, Vec3.mk.injEq]
  exact ⟨max_sub_sub_right _ _ _, max_sub_sub_right _ _ _,
    max_sub_sub_right _ _ _⟩

/-- Folding `vmin` over translated points is the translated fold. -/
theorem foldl_vmin_sub (t : Vec3) (f : Vec3 → Vec3) :
    ∀ (ps : List Vec3) (p : Vec3),
      (ps.map fun x => (f x).sub t).foldl Vec3.vmin (p.sub t)
        = ((ps.map f).foldl Vec3.vmin p).sub t
  | [], _ => rfl
  | q :: qs, p => by
    simp only [List.map_cons, List.foldl_cons]
    rw [vmin_sub, foldl_vmin_sub t f qs]

/-- Folding `vmax` over translated points is the translated fold. -/
theorem foldl_vmax_sub (t : Vec3) (f : Vec3 → Vec3) :
    ∀ (ps : List Vec3) (p : Vec3),
      (ps.map fun x => (f x).sub t).foldl Vec3.vmax (p.sub t)
        = ((ps.map f).foldl Vec3.vmax p).sub t
  | [], _ => rfl
  | q :: qs, p => by
    simp only [List.map_cons, List.foldl_cons]
    rw [vmax_sub, foldl_vmax_sub t f qs]

/-- Translating a nonempty model translates both corners of its AABB. -/
theorem boxOf_shift (m : Model3D) (t : Vec3) (hne : m.vertices ≠ []) :
    boxOf { m with position := m.position.sub t }
      = ⟨(boxOf m).lo.sub t, (boxOf m).hi.sub t⟩ := by
  obtain ⟨verts, pos, scl, root⟩ := m
  obtain ⟨q, qs, hq⟩ := List.exists_cons_of_ne_nil hne
  subst hq
  have hwf : worldVertex
        (Model3D.mk (q :: qs) (Vec3.sub pos t) scl root)
      = fun x =>
          (worldVertex (Model3D.mk (q :: qs) pos scl root) x).sub t :=
    funext fun x =>
      worldVertex_shift (Model3D.mk (q :: qs) pos scl root) t x
  simp only [boxOf, hwf]
  rw [Box3.mk.injEq]
  exact ⟨foldl_vmin_sub t _ _ _, foldl_vmax_sub t _ _ _⟩

/-- C6: on model load the viewer translates the asset by the AABB center, so
the translated asset's box center sits at the scene origin; then, if the
largest box dimension `maxSize` exceeds 50, it sets the uniform per-axis
scale `50 / maxSize` (the same factor on every axis), and if `maxSize ≤ 50`
it leaves the scale untouched; the orbit controls are retargeted at the
(pre-translation) box center. -/
theorem c6_load_centers_and_scales (m : Model3D) (v : ViewerState)
    (hne : m.vertices ≠ []) :
    boxCenter (boxOf { m with
          position := m.position.sub (boxCenter (boxOf m)) })
        = ⟨0, 0, 0⟩
      ∧ (50 < maxDim (boxSize (boxOf m)) →
          (loadCallback m v).model
            = some { m with
                position := m.position.sub (boxCenter (boxOf m))
                scale := ⟨50 / maxDim (boxSize (boxOf m)),
                          50 / maxDim (boxSize (boxOf m)),
                          50 / maxDim (boxSize (boxOf m))⟩ })
      ∧ (maxDim (boxSize (boxOf m)) ≤ 50 →
          (loadCallback m v).model
            = some { m with
                position := m.position.sub (boxCenter (boxOf m)) })
      ∧ (loadCallback m v).controlsTarget = boxCenter (boxOf m) := by
  refine ⟨?_, fun hlt => ?_, fun hle => ?_, rfl⟩
  · rw [boxOf_shift m (boxCenter (boxOf m)) hne]
    simp only [boxCenter, Vec3.smul, Vec3.add, Vec3.sub, Vec3.mk.injEq]
    refine ⟨by ring, by ring, by ring⟩
  · simp only [loadCallback, if_pos hlt]
  · simp only [loadCallback, if_neg (not_lt.mpr hle)]

/-- C6 witness: loading the 120 × 40 × 10 test asset applies the uniform
scale `50 / 120` on every axis, and the translated asset is centered at the
origin. -/
theorem c6_load_centers_and_scales_witness :
    wideModel.vertices ≠ []
      ∧ 50 < maxDim (boxSize (boxOf wideModel))
      ∧ (loadCallback wideModel initViewer).model
          = some { wideModel with
              position := wideModel.position.sub (boxCenter (boxOf wideModel))
              scale := ⟨50 / 120, 50 / 120, 50 / 120⟩ }
      ∧ boxCenter (boxOf { wideModel with
            position := wideModel.position.sub (boxCenter (boxOf wideModel)) })
          = ⟨0, 0, 0⟩ := by
  have hne : wideModel.vertices ≠ [] := by simp [wideModel]
  have hd : maxDim (boxSize (boxOf wideModel)) = 120 := by
    norm_num [wideModel, boxOf, worldVertex, Vec3.add, Vec3.hadamard,
      Vec3.vmin, Vec3.vmax, boxSize, Vec3.sub, maxDim]
  have hlt : 50 < maxDim (boxSize (boxOf wideModel)) := by rw [hd]; norm_num
  refine ⟨hne, hlt, ?_, (c6_load_centers_and_scales wideModel initViewer hne).1⟩
  have h := (c6_load_centers_and_scales wideModel initViewer hne).2.1 hlt
  rw [h, hd]

mutual

/-- Lists of wireframe flags after a `setWire` traversal: every sub-mesh,
nested ones included, carries the written flag (and the number of sub-meshes
is unchanged). -/
theorem setWire_wireFlags (b : Bool) :
    ∀ n : SceneNode,
      (n.setWire b).wireFlags = List.replicate n.wireFlags.length b
  | .mesh _ cs => by
    simp only [SceneNode.setWire, SceneNode.wireFlags, List.length_cons,
      List.replicate_succ]
    exact congrArg (List.cons b) (setWireAll_wireFlagsAll b cs)
  | .group cs => by
    simp only [SceneNode.setWire, SceneNode.wireFlags]
    exact setWireAll_wireFlagsAll b cs

/-- Version of `setWire_wireFlags` for a list of children. -/
theorem setWireAll_wireFlagsAll (b : Bool) :
    ∀ ns : List SceneNode,
      SceneNode.wireFlagsAll (SceneNode.setWireAll b ns)
        = List.replicate (SceneNode.wireFlagsAll ns).length b
  | [] => rfl
  | n :: ns => by
    simp only [SceneNode.setWireAll, SceneNode.wireFlagsAll,
      List.length_append, List.replicate_add]
    rw [setWire_wireFlags b n, setWireAll_wireFlagsAll b ns]

end

/-- C7: on any viewer state whose loaded model has its sub-mesh flags in sync
with the global `wireframeMode` (which holds in every reachable state: a
fresh three.js asset loads with all materials non-wireframe and the global
false, and every toggle rewrites all flags to the new global), one
`toggleWireframe` sets the flag uniformly on all sub-meshes, nested ones
included, and two consecutive calls return every sub-mesh's flag — and the
global — to the value before the calls. -/
theorem c7_toggleWireframe_roundtrip (v : ViewerState) (m : Model3D)
    (hm : v.model = some m)
    (hunif : ∀ f ∈ m.root.wireFlags, f = v.wireframeMode) :
    (∃ m1, (toggleWireframe v).model = some m1
        ∧ m1.root.wireFlags
            = List.replicate m.root.wireFlags.length (!v.wireframeMode))
      ∧ (∃ m2, (toggleWireframe (toggleWireframe v)).model = some m2
          ∧ m2.root.wireFlags = m.root.wireFlags)
      ∧ (toggleWireframe (toggleWireframe v)).wireframeMode
          = v.wireframeMode := by
  have hflags : m.root.wireFlags
      = List.replicate m.root.wireFlags.length v.wireframeMode :=
    List.eq_replicate_iff.mpr ⟨rfl, hunif⟩
  have h1 : toggleWireframe v
      = { v with wireframeMode := !v.wireframeMode
                 model := some { m with
                    root := m.root.setWire (!v.wireframeMode) } } := by
    simp [toggleWireframe, hm]
  have h2 : toggleWireframe (toggleWireframe v)
      = { v with wireframeMode := !(!v.wireframeMode)
                 model := some { m with
                    root := (m.root.setWire
                        (!v.wireframeMode)).setWire (!(!v.wireframeMode)) } } := by
    rw [h1]; simp [toggleWireframe]
  refine ⟨⟨_, by rw [h1], ?_⟩, ⟨_, by rw [h2], ?_⟩, by rw [h2]; simp⟩
  · exact setWire_wireFlags _ _
  · rw [setWire_wireFlags, setWire_wireFlags, List.length_replicate,
      Bool.not_not]
    exact hflags.symm

/-- C7 witness: on the nested test model with all flags off, one toggle turns
every flag on and a second toggle restores all three sub-mesh flags. -/
theorem c7_toggleWireframe_roundtrip_witness :
    nestedViewer.model = some nestedModel
      ∧ (∀ f ∈ nestedModel.root.wireFlags, f = nestedViewer.wireframeMode)
      ∧ (∃ m2, (toggleWireframe (toggleWireframe nestedViewer)).model = some m2
          ∧ m2.root.wireFlags = nestedModel.root.wireFlags) :=
  have hunif : ∀ f ∈ nestedModel.root.wireFlags, f = nestedViewer.wireframeMode :=
    by decide
  ⟨rfl, hunif,
    (c7_toggleWireframe_roundtrip nestedViewer nestedModel rfl hunif).2.1⟩

/-- C8: `resetView` is idempotent — a second consecutive call recomputes the
same bounding box of the unchanged model and therefore assigns the same
camera position and the same orbit-controls target as the first call (and
with no model loaded both calls are no-ops). -/
theorem c8_resetView_idempotent (v : ViewerState) :
    (resetView (resetView v)).cameraPos = (resetView v).cameraPos
      ∧ (resetView (resetView v)).controlsTarget
          = (resetView v).controlsTarget := by
  cases h : v.model with
  | none => simp [resetView, h]
  | some m => simp [resetView, h]

end Depthify
